import Mathlib

/-!
Shallow embedding of the Desired Geometry Reconciliation Controller of
tmowes/desktop-widget-clock, `src/main/services/window.ts`.

Modelling choices:
- The Electron host is made explicit: the module-level `mainWindow`
  reference together with the window's current geometry and destroyed flag
  becomes `Option Win`, and the `electron-store` value under the
  `windowPosition` key becomes `Option WindowPosition` (`none` is the
  store's `null` default / an absent value).  Both are packaged in `Env`.
- Each controller function is translated into a function from `Env` to the
  list of corrective effects it performs, in program order: host setter
  calls (`setSize`, `setPosition`, `setAlwaysOnTop`), store writes
  (`store.set`), and timer registrations (`setTimeout`). Reads
  (`getPosition`, `getSize`, `isDestroyed`) are reads of `Env`; logging
  calls (`logWindowEvent`, `logAppEvent`) are pure observations and are
  not effects.
- A `setTimeout` callback is reified as a `Callback` value carried by the
  `schedule` effect; `runCallback` gives the callback body's effects as a
  function of the environment sampled at fire time (the source callbacks
  re-sample geometry when they fire; only `desired` is captured at
  scheduling time, exactly as the closures in `forceDesiredPosition` do).
- `isPositionVisible` reads the display list from `screen.getAllDisplays()`
  in the source; here the display list is an explicit argument.
-/

namespace WidgetClock

structure WindowPosition where
  x : Int
  y : Int
deriving DecidableEq, Repr

def WINDOW_WIDTH : Int := 320

def WINDOW_HEIGHT : Int := 47

def DESIRED_POSITION : WindowPosition := { x := 0, y := 1696 }

structure Rect where
  x : Int
  y : Int
  width : Int
  height : Int
deriving DecidableEq, Repr

structure Display where
  workArea : Rect
deriving DecidableEq, Repr

/-- `getDefaultPosition` from the source. -/
def getDefaultPosition : WindowPosition := DESIRED_POSITION

/-- `isPositionVisible` from the source, with the display list
(`screen.getAllDisplays()` there) as an explicit argument. -/
def isPositionVisible (displays : List Display) (position : WindowPosition) : Bool :=
  displays.any fun display =>
    let x := display.workArea.x
    let y := display.workArea.y
    let width := display.workArea.width
    let height := display.workArea.height
    let windowRight := position.x + WINDOW_WIDTH
    let windowBottom := position.y + WINDOW_HEIGHT
    let isVisibleHorizontally := decide (position.x < x + width) && decide (windowRight > x)
    let isVisibleVertically := decide (position.y < y + height) && decide (windowBottom > y)
    isVisibleHorizontally && isVisibleVertically

/-- The managed surface: current geometry plus the `isDestroyed()` flag. -/
structure Win where
  x : Int
  y : Int
  width : Int
  height : Int
  destroyed : Bool
deriving DecidableEq, Repr

/-- The environment a controller function reads: the module-level
`mainWindow` reference (none when null) and `store.get('windowPosition')`
(none when the stored value is null / absent). -/
structure Env where
  mainWindow : Option Win
  windowPosition : Option WindowPosition
deriving DecidableEq, Repr

/-- The delayed callbacks registered with `setTimeout` in the source.
`positionRetry` is the body of the nested closures in
`forceDesiredPosition` (attempts 1, 2, 3 — identical up to log tags),
carrying the `desired` position captured at scheduling time.
`topologyPositionCheck` is `() => forceDesiredPosition(store)` from
`setupDisplayEvents`; `resizeSizeFix` is the 50 ms callback of the
`resize` handler. -/
inductive Callback where
  | positionRetry (attempt : Nat) (desired : WindowPosition)
  | topologyPositionCheck
  | resizeSizeFix
deriving DecidableEq, Repr

/-- Corrective effects, in program order. -/
inductive Eff where
  | setSize (width height : Int)
  | setPosition (x y : Int)
  | setAlwaysOnTop (flag : Bool)
  | storeSet (p : WindowPosition)
  | schedule (delayMs : Nat) (cb : Callback)
deriving DecidableEq, Repr

/-- `resetWindowPosition` from the source: guarded by `if (!mainWindow)
return` only (no `isDestroyed()` check there). -/
def resetWindowPosition (env : Env) (saveToStore : Bool) : List Eff :=
  match env.mainWindow with
  | none => []
  | some _ =>
    [Eff.setPosition getDefaultPosition.x getDefaultPosition.y,
     Eff.setAlwaysOnTop true] ++
    (if saveToStore then [Eff.storeSet getDefaultPosition] else [])

/-- `forceDesiredSize` from the source. -/
def forceDesiredSize (env : Env) : List Eff :=
  match env.mainWindow with
  | none => []
  | some w =>
    if w.destroyed then []
    else if w.width ≠ WINDOW_WIDTH ∨ w.height ≠ WINDOW_HEIGHT then
      [Eff.setSize WINDOW_WIDTH WINDOW_HEIGHT]
    else []

/-- The body shared by the three nested `setTimeout` closures of
`forceDesiredPosition` (100 / 500 / 1000 ms): liveness guard, then
`forceDesiredSize()`, then re-sample the position and re-issue the
correction (plus on-top re-assert) when it still differs from the
captured `desired`. -/
def positionRetryBody (desired : WindowPosition) (env : Env) : List Eff :=
  match env.mainWindow with
  | none => []
  | some w =>
    if w.destroyed then []
    else
      forceDesiredSize env ++
      (if w.x ≠ desired.x ∨ w.y ≠ desired.y then
        [Eff.setPosition desired.x desired.y, Eff.setAlwaysOnTop true]
      else [])

/-- `forceDesiredPosition` from the source: liveness guard; `desired` is
`store.get('windowPosition') ?? DESIRED_POSITION`; an inline size check
(same as `forceDesiredSize`); then, when the position differs, the
correction, the on-top re-assert and the three retry timers. -/
def forceDesiredPosition (env : Env) : List Eff :=
  match env.mainWindow with
  | none => []
  | some w =>
    if w.destroyed then []
    else
      let desired := env.windowPosition.getD DESIRED_POSITION
      (if w.width ≠ WINDOW_WIDTH ∨ w.height ≠ WINDOW_HEIGHT then
        [Eff.setSize WINDOW_WIDTH WINDOW_HEIGHT]
      else []) ++
      (if w.x ≠ desired.x ∨ w.y ≠ desired.y then
        [Eff.setPosition desired.x desired.y,
         Eff.setAlwaysOnTop true,
         Eff.schedule 100 (Callback.positionRetry 1 desired),
         Eff.schedule 500 (Callback.positionRetry 2 desired),
         Eff.schedule 1000 (Callback.positionRetry 3 desired)]
      else [])

/-- The `moved` event handler from `setupWindowEvents`: persist the
current position unconditionally. -/
def movedHandler (env : Env) : List Eff :=
  match env.mainWindow with
  | none => []
  | some w => [Eff.storeSet { x := w.x, y := w.y }]

/-- The 50 ms callback scheduled by the `resize` handler: liveness guard,
then an unconditional `setSize` back to the constants. -/
def resizeFixBody (env : Env) : List Eff :=
  match env.mainWindow with
  | none => []
  | some w =>
    if w.destroyed then []
    else [Eff.setSize WINDOW_WIDTH WINDOW_HEIGHT]

/-- The `resize` event handler from `setupWindowEvents`: when the sampled
size differs from the constants, schedule the 50 ms size fix. -/
def resizeHandler (env : Env) : List Eff :=
  match env.mainWindow with
  | none => []
  | some w =>
    if w.width ≠ WINDOW_WIDTH ∨ w.height ≠ WINDOW_HEIGHT then
      [Eff.schedule 50 Callback.resizeSizeFix]
    else []

/-- Dispatch of a fired timer callback against the environment sampled at
fire time. -/
def runCallback (cb : Callback) (env : Env) : List Eff :=
  match cb with
  | Callback.positionRetry _ desired => positionRetryBody desired env
  | Callback.topologyPositionCheck => forceDesiredPosition env
  | Callback.resizeSizeFix => resizeFixBody env

/-- The `finalPosition` computation of `createWindow`:
`savedPosition && isPositionVisible(savedPosition) ? savedPosition :
getDefaultPosition()`. -/
def finalPosition (savedPosition : Option WindowPosition) (displays : List Display) :
    WindowPosition :=
  match savedPosition with
  | some p => if isPositionVisible displays p then p else getDefaultPosition
  | none => getDefaultPosition

/-- The `display-added` handler from `setupDisplayEvents`. -/
def displayAddedHandler (env : Env) : List Eff :=
  match env.mainWindow with
  | none => []
  | some _ =>
    forceDesiredSize env ++
    [Eff.schedule 500 Callback.topologyPositionCheck,
     Eff.schedule 1500 Callback.topologyPositionCheck,
     Eff.schedule 3000 Callback.topologyPositionCheck]

/-- The `display-removed` handler from `setupDisplayEvents` (same body as
`display-added` up to log tags). -/
def displayRemovedHandler (env : Env) : List Eff :=
  match env.mainWindow with
  | none => []
  | some _ =>
    forceDesiredSize env ++
    [Eff.schedule 500 Callback.topologyPositionCheck,
     Eff.schedule 1500 Callback.topologyPositionCheck,
     Eff.schedule 3000 Callback.topologyPositionCheck]

/-- The `display-metrics-changed` handler from `setupDisplayEvents` (same
body again). -/
def displayMetricsChangedHandler (env : Env) : List Eff :=
  match env.mainWindow with
  | none => []
  | some _ =>
    forceDesiredSize env ++
    [Eff.schedule 500 Callback.topologyPositionCheck,
     Eff.schedule 1500 Callback.topologyPositionCheck,
     Eff.schedule 3000 Callback.topologyPositionCheck]

/-- The timers registered by a list of effects, in order. -/
def scheduledTimers (effs : List Eff) : List (Nat × Callback) :=
  effs.filterMap fun e =>
    match e with
    | Eff.schedule d cb => some (d, cb)
    | _ => none

/-- Half-open intervals `[a1, b1)` and `[a2, b2)` overlap. -/
def intervalsOverlap (a1 b1 a2 b2 : Int) : Prop := a1 < b2 ∧ a2 < b1

/-- Spec-side visibility of the widget rectangle on one display: overlap
on both axes. -/
def specVisibleOn (d : Display) (p : WindowPosition) : Prop :=
  intervalsOverlap p.x (p.x + WINDOW_WIDTH) d.workArea.x (d.workArea.x + d.workArea.width) ∧
  intervalsOverlap p.y (p.y + WINDOW_HEIGHT) d.workArea.y (d.workArea.y + d.workArea.height)

/-- Every `setPosition` in the list is immediately followed by
`setAlwaysOnTop true`. -/
def onTopFollowsPosition : List Eff → Bool
  | [] => true
  | Eff.setPosition _ _ :: rest =>
    (match rest.head? with
     | some (Eff.setAlwaysOnTop true) => true
     | _ => false) && onTopFollowsPosition rest
  | _ :: rest => onTopFollowsPosition rest

/-- Characterization of `forceDesiredSize` on a live surface. -/
theorem forceDesiredSize_eq (env : Env) (w : Win)
    (hw : env.mainWindow = some w) (hlive : w.destroyed = false) :
    forceDesiredSize env =
      if w.width ≠ WINDOW_WIDTH ∨ w.height ≠ WINDOW_HEIGHT then
        [Eff.setSize WINDOW_WIDTH WINDOW_HEIGHT]
      else [] := by
  simp [forceDesiredSize, hw, hlive]

/-- Characterization of `forceDesiredPosition` on a live surface. -/
theorem forceDesiredPosition_eq (env : Env) (w : Win)
    (hw : env.mainWindow = some w) (hlive : w.destroyed = false) :
    forceDesiredPosition env =
      (if w.width ≠ WINDOW_WIDTH ∨ w.height ≠ WINDOW_HEIGHT then
        [Eff.setSize WINDOW_WIDTH WINDOW_HEIGHT]
      else []) ++
      (if w.x ≠ (env.windowPosition.getD DESIRED_POSITION).x ∨
          w.y ≠ (env.windowPosition.getD DESIRED_POSITION).y then
        [Eff.setPosition (env.windowPosition.getD DESIRED_POSITION).x
           (env.windowPosition.getD DESIRED_POSITION).y,
         Eff.setAlwaysOnTop true,
         Eff.schedule 100 (Callback.positionRetry 1 (env.windowPosition.getD DESIRED_POSITION)),
         Eff.schedule 500 (Callback.positionRetry 2 (env.windowPosition.getD DESIRED_POSITION)),
         Eff.schedule 1000 (Callback.positionRetry 3 (env.windowPosition.getD DESIRED_POSITION))]
      else []) := by
  simp [forceDesiredPosition, hw, hlive]

/-- Characterization of a retry-ladder callback body on a live surface. -/
theorem positionRetryBody_eq (desired : WindowPosition) (env : Env) (w : Win)
    (hw : env.mainWindow = some w) (hlive : w.destroyed = false) :
    positionRetryBody desired env =
      forceDesiredSize env ++
      (if w.x ≠ desired.x ∨ w.y ≠ desired.y then
        [Eff.setPosition desired.x desired.y, Eff.setAlwaysOnTop true]
      else []) := by
  simp [positionRetryBody, hw, hlive]

/-- `scheduledTimers` distributes over append. -/
theorem scheduledTimers_append (a b : List Eff) :
    scheduledTimers (a ++ b) = scheduledTimers a ++ scheduledTimers b := by
  simp [scheduledTimers]

/-- C1: isPositionVisible is true iff some display's work area overlaps
the widget rectangle on both axes (half-open interval overlap), and it is
false on the empty display list. -/
theorem isPositionVisible_iff_overlap (displays : List Display) (position : WindowPosition) :
    (isPositionVisible displays position = true ↔
      ∃ d ∈ displays, specVisibleOn d position) ∧
    isPositionVisible [] position = false := by
  constructor
  · simp only [isPositionVisible, List.any_eq_true, Bool.and_eq_true, decide_eq_true_eq]
    constructor
    · rintro ⟨d, hd, ⟨h1, h2⟩, h3, h4⟩
      exact ⟨d, hd, ⟨h1, h2⟩, h3, h4⟩
    · rintro ⟨d, hd, ⟨h1, h2⟩, h3, h4⟩
      exact ⟨d, hd, ⟨h1, h2⟩, h3, h4⟩
  · rfl

/-- C2: when `forceDesiredPosition` issues a position correction, exactly
the three retry timers at 100, 500 and 1000 ms are scheduled; a retry
callback re-samples the environment at fire time and re-issues the
position correction exactly when the position still differs from the
captured desired position; no retry callback schedules further timers. -/
theorem forceDesiredPosition_retry_ladder (env : Env) (w : Win)
    (hw : env.mainWindow = some w) (hlive : w.destroyed = false)
    (hdrift : w.x ≠ (env.windowPosition.getD DESIRED_POSITION).x ∨
              w.y ≠ (env.windowPosition.getD DESIRED_POSITION).y) :
    scheduledTimers (forceDesiredPosition env) =
      [(100, Callback.positionRetry 1 (env.windowPosition.getD DESIRED_POSITION)),
       (500, Callback.positionRetry 2 (env.windowPosition.getD DESIRED_POSITION)),
       (1000, Callback.positionRetry 3 (env.windowPosition.getD DESIRED_POSITION))] ∧
    (∀ (fireEnv : Env) (attempt : Nat) (desired : WindowPosition),
      scheduledTimers (runCallback (Callback.positionRetry attempt desired) fireEnv) = []) ∧
    (∀ (fireEnv : Env) (w2 : Win) (attempt : Nat) (desired : WindowPosition),
      fireEnv.mainWindow = some w2 → w2.destroyed = false →
      (Eff.setPosition desired.x desired.y ∈
          runCallback (Callback.positionRetry attempt desired) fireEnv ↔
        (w2.x ≠ desired.x ∨ w2.y ≠ desired.y))) := by
  refine ⟨?_, ?_, ?_⟩
  · rw [forceDesiredPosition_eq env w hw hlive, scheduledTimers_append, if_pos hdrift]
    split <;> simp [scheduledTimers]
  · intro fireEnv attempt desired
    show scheduledTimers (positionRetryBody desired fireEnv) = []
    cases hfw : fireEnv.mainWindow with
    | none => simp [positionRetryBody, hfw, scheduledTimers]
    | some w2 =>
      cases hd2 : w2.destroyed with
      | true => simp [positionRetryBody, hfw, hd2, scheduledTimers]
      | false =>
        rw [positionRetryBody_eq desired fireEnv w2 hfw hd2, scheduledTimers_append,
          forceDesiredSize_eq fireEnv w2 hfw hd2]
        split <;> split <;> simp [scheduledTimers]
  · intro fireEnv w2 attempt desired hfw hd2
    rw [runCallback, positionRetryBody_eq desired fireEnv w2 hfw hd2,
      forceDesiredSize_eq fireEnv w2 hfw hd2]
    constructor
    · intro hmem
      by_contra hsame
      rw [if_neg hsame] at hmem
      rcases List.mem_append.mp hmem with h | h
      · split at h <;> simp_all
      · simp at h
    · intro hne
      rw [if_pos hne]
      exact List.mem_append.mpr (Or.inr (List.mem_cons_self _ _))

def winDrift : Win := { x := 5, y := 5, width := 320, height := 47, destroyed := false }

def envDrift : Env := { mainWindow := some winDrift, windowPosition := none }

/-- Witness for C2 at a concrete drifted state. -/
theorem forceDesiredPosition_retry_ladder_witness :
    scheduledTimers (forceDesiredPosition envDrift) =
      [(100, Callback.positionRetry 1 DESIRED_POSITION),
       (500, Callback.positionRetry 2 DESIRED_POSITION),
       (1000, Callback.positionRetry 3 DESIRED_POSITION)] :=
  (forceDesiredPosition_retry_ladder envDrift winDrift rfl rfl (Or.inl (by decide))).1

def display1080 : Display := { workArea := { x := 0, y := 0, width := 1920, height := 1080 } }

def winAtDefault : Win := { x := 0, y := 1696, width := 320, height := 47, destroyed := false }

def envStale : Env :=
  { mainWindow := some winAtDefault, windowPosition := some { x := 5000, y := 5000 } }

/-- C3 counterexample: with persisted position (5000, 5000) and a single
display covering 0..1920 by 0..1080, a reconciliation pass
(`forceDesiredPosition`, as triggered on every topology change) targets
the persisted position even though it is visible on no attached display:
the source computes `desired` as `store.get('windowPosition') ??
DESIRED_POSITION` with no visibility check. -/
theorem forceDesiredPosition_targets_invisible_persisted :
    Eff.setPosition 5000 5000 ∈ forceDesiredPosition envStale ∧
    isPositionVisible [display1080] { x := 5000, y := 5000 } = false := by
  constructor
  · simp [forceDesiredPosition, envStale, winAtDefault]
  · decide

/-- C3 amended: on reconciliation passes (topology changes included) the
position correction targets the persisted position when present and the
hard-coded default otherwise, with no visibility check; any `setPosition`
issued by `forceDesiredPosition` carries exactly those coordinates. -/
theorem forceDesiredPosition_targets_persisted_or_default (env : Env) (w : Win)
    (hw : env.mainWindow = some w) (hlive : w.destroyed = false) :
    ∀ a b : Int, Eff.setPosition a b ∈ forceDesiredPosition env →
      a = (env.windowPosition.getD DESIRED_POSITION).x ∧
      b = (env.windowPosition.getD DESIRED_POSITION).y := by
  intro a b hmem
  rw [forceDesiredPosition_eq env w hw hlive] at hmem
  rcases List.mem_append.mp hmem with h | h
  · split at h <;> simp_all
  · split at h <;> simp_all

/-- Witness for the amended C3 at the concrete stale-store state. -/
theorem forceDesiredPosition_targets_persisted_or_default_witness :
    (5000 : Int) = (envStale.windowPosition.getD DESIRED_POSITION).x ∧
    (5000 : Int) = (envStale.windowPosition.getD DESIRED_POSITION).y :=
  forceDesiredPosition_targets_persisted_or_default envStale winAtDefault rfl rfl
    5000 5000 (by simp [forceDesiredPosition, envStale, winAtDefault])

/-- C4: the initial window position of `createWindow` is the persisted
position when present and visible on the current displays, and the
hard-coded default when the persisted position is absent or not
visible. -/
theorem createWindow_initial_position (savedPosition : Option WindowPosition)
    (displays : List Display) :
    (savedPosition = none → finalPosition savedPosition displays = DESIRED_POSITION) ∧
    (∀ p, savedPosition = some p → isPositionVisible displays p = true →
      finalPosition savedPosition displays = p) ∧
    (∀ p, savedPosition = some p → isPositionVisible displays p = false →
      finalPosition savedPosition displays = DESIRED_POSITION) := by
  refine ⟨?_, ?_, ?_⟩
  · intro h
    simp [h, finalPosition, getDefaultPosition]
  · intro p hp hvis
    simp [hp, finalPosition, hvis]
  · intro p hp hvis
    simp [hp, finalPosition, hvis, getDefaultPosition]

/-- Witness for C4: persisted (5000, 5000) is not visible on the single
1920 by 1080 display, so creation falls back to the default. -/
theorem createWindow_initial_position_witness :
    finalPosition (some { x := 5000, y := 5000 }) [display1080] = DESIRED_POSITION :=
  (createWindow_initial_position (some { x := 5000, y := 5000 }) [display1080]).2.2
    { x := 5000, y := 5000 } rfl (by decide)

/-- C5: reconciliation is idempotent: on a live surface whose size equals
the constants and whose position equals the resolved desired position
(persisted value when present, default otherwise), `forceDesiredSize` and
`forceDesiredPosition` perform no host call, no store write and schedule
no timer. -/
theorem reconcile_idempotent (env : Env) (w : Win)
    (hw : env.mainWindow = some w) (hlive : w.destroyed = false)
    (hsw : w.width = WINDOW_WIDTH) (hsh : w.height = WINDOW_HEIGHT)
    (hx : w.x = (env.windowPosition.getD DESIRED_POSITION).x)
    (hy : w.y = (env.windowPosition.getD DESIRED_POSITION).y) :
    forceDesiredSize env = [] ∧ forceDesiredPosition env = [] := by
  constructor
  · rw [forceDesiredSize_eq env w hw hlive]
    simp [hsw, hsh]
  · rw [forceDesiredPosition_eq env w hw hlive]
    simp [hsw, hsh, hx, hy]

def winIdle : Win := { x := 0, y := 1696, width := 320, height := 47, destroyed := false }

def envIdle : Env := { mainWindow := some winIdle, windowPosition := none }

/-- Witness for C5 at a concrete already-correct state. -/
theorem reconcile_idempotent_witness :
    forceDesiredSize envIdle = [] ∧ forceDesiredPosition envIdle = [] :=
  reconcile_idempotent envIdle winIdle rfl rfl rfl rfl (by decide) (by decide)

/-- C6: the moved handler overwrites the persisted position with the
window's current coordinates unconditionally (the statement holds for
every environment, in particular when those coordinates are visible on
no display) and issues no corrective call. -/
theorem moved_handler_persists_unconditionally (env : Env) (w : Win)
    (hw : env.mainWindow = some w) :
    movedHandler env = [Eff.storeSet { x := w.x, y := w.y }] ∧
    (∀ a b : Int, Eff.setPosition a b ∉ movedHandler env) ∧
    (∀ a b : Int, Eff.setSize a b ∉ movedHandler env) := by
  refine ⟨by simp [movedHandler, hw], ?_, ?_⟩ <;> intro a b <;> simp [movedHandler, hw]

def winOffscreen : Win := { x := 9999, y := 9999, width := 320, height := 47, destroyed := false }

def envOffscreen : Env := { mainWindow := some winOffscreen, windowPosition := none }

/-- Witness for C6 at coordinates visible on no display. -/
theorem moved_handler_persists_unconditionally_witness :
    movedHandler envOffscreen = [Eff.storeSet { x := 9999, y := 9999 }] ∧
    isPositionVisible [display1080] { x := 9999, y := 9999 } = false :=
  ⟨(moved_handler_persists_unconditionally envOffscreen winOffscreen rfl).1, by decide⟩

def winDestroyed : Win := { x := 0, y := 1696, width := 320, height := 47, destroyed := true }

def envDestroyed : Env := { mainWindow := some winDestroyed, windowPosition := none }

/-- C7 counterexample: `resetWindowPosition` guards only on the surface
reference being null (`if (!mainWindow) return`); on a
present-but-destroyed surface it still issues host calls, because the
source does not check `mainWindow.isDestroyed()` there. -/
theorem resetWindowPosition_missing_destroyed_check :
    winDestroyed.destroyed = true ∧
    Eff.setPosition 0 1696 ∈ resetWindowPosition envDestroyed true := by
  decide

/-- C7 amended: `forceDesiredSize`, `forceDesiredPosition` and every
delayed callback silently no-op when the surface reference is null or
the surface is destroyed; `resetWindowPosition` silently no-ops when the
reference is null but performs no destruction check. -/
theorem liveness_guards (env : Env) :
    (env.mainWindow = none →
      resetWindowPosition env true = [] ∧ resetWindowPosition env false = [] ∧
      forceDesiredSize env = [] ∧ forceDesiredPosition env = [] ∧
      ∀ cb : Callback, runCallback cb env = []) ∧
    (∀ w : Win, env.mainWindow = some w → w.destroyed = true →
      forceDesiredSize env = [] ∧ forceDesiredPosition env = [] ∧
      ∀ cb : Callback, runCallback cb env = []) := by
  constructor
  · intro h
    refine ⟨by simp [resetWindowPosition, h], by simp [resetWindowPosition, h],
      by simp [forceDesiredSize, h], by simp [forceDesiredPosition, h], ?_⟩
    intro cb
    cases cb <;>
      simp [runCallback, positionRetryBody, forceDesiredPosition, resizeFixBody, h]
  · intro w hw hd
    refine ⟨by simp [forceDesiredSize, hw, hd], by simp [forceDesiredPosition, hw, hd], ?_⟩
    intro cb
    cases cb <;>
      simp [runCallback, positionRetryBody, forceDesiredPosition, resizeFixBody, hw, hd]

/-- Witness for the amended C7: a destroyed surface skips the
reconciliation entry points. -/
theorem liveness_guards_witness :
    forceDesiredPosition envDestroyed = [] :=
  ((liveness_guards envDestroyed).2 winDestroyed rfl rfl).2.1

/-- C8: each display-topology event handler, with a present surface,
performs the effects of one immediate `forceDesiredSize` call followed by
exactly three scheduled position reconciliations at 500, 1500 and 3000 ms;
each scheduled check runs the full `forceDesiredPosition` against the
fire-time environment unconditionally, independent of the others. -/
theorem display_event_cadence (env : Env) (w : Win) (hw : env.mainWindow = some w) :
    displayAddedHandler env =
      forceDesiredSize env ++
        [Eff.schedule 500 Callback.topologyPositionCheck,
         Eff.schedule 1500 Callback.topologyPositionCheck,
         Eff.schedule 3000 Callback.topologyPositionCheck] ∧
    displayRemovedHandler env = displayAddedHandler env ∧
    displayMetricsChangedHandler env = displayAddedHandler env ∧
    (∀ fireEnv : Env,
      runCallback Callback.topologyPositionCheck fireEnv = forceDesiredPosition fireEnv) := by
  refine ⟨?_, ?_, ?_, fun _ => rfl⟩ <;>
    simp [displayAddedHandler, displayRemovedHandler, displayMetricsChangedHandler, hw]

/-- Witness for C8 at a concrete already-correct state: one size pass
(a no-op there) plus the three scheduled checks. -/
theorem display_event_cadence_witness :
    displayAddedHandler envIdle =
      [Eff.schedule 500 Callback.topologyPositionCheck,
       Eff.schedule 1500 Callback.topologyPositionCheck,
       Eff.schedule 3000 Callback.topologyPositionCheck] :=
  ((display_event_cadence envIdle winIdle rfl).1).trans (by decide)

/-- C9: every `setPosition` issued by `forceDesiredPosition`,
`resetWindowPosition` or any delayed callback is immediately followed by
`setAlwaysOnTop true`. -/
theorem position_correction_reasserts_on_top (env : Env) (saveToStore : Bool) (cb : Callback) :
    onTopFollowsPosition (forceDesiredPosition env) = true ∧
    onTopFollowsPosition (resetWindowPosition env saveToStore) = true ∧
    onTopFollowsPosition (runCallback cb env) = true := by
  have hforce : onTopFollowsPosition (forceDesiredPosition env) = true := by
    cases hw : env.mainWindow with
    | none => simp [forceDesiredPosition, hw, onTopFollowsPosition]
    | some w =>
      cases hd : w.destroyed with
      | true => simp [forceDesiredPosition, hw, hd, onTopFollowsPosition]
      | false =>
        rw [forceDesiredPosition_eq env w hw hd]
        split <;> split <;> simp [onTopFollowsPosition]
  refine ⟨hforce, ?_, ?_⟩
  · cases hw : env.mainWindow with
    | none => simp [resetWindowPosition, hw, onTopFollowsPosition]
    | some w => cases saveToStore <;> simp [resetWindowPosition, hw, onTopFollowsPosition]
  · cases cb with
    | positionRetry attempt desired =>
      show onTopFollowsPosition (positionRetryBody desired env) = true
      cases hw : env.mainWindow with
      | none => simp [positionRetryBody, hw, onTopFollowsPosition]
      | some w =>
        cases hd : w.destroyed with
        | true => simp [positionRetryBody, hw, hd, onTopFollowsPosition]
        | false =>
          rw [positionRetryBody_eq desired env w hw hd, forceDesiredSize_eq env w hw hd]
          split <;> split <;> simp [onTopFollowsPosition]
    | topologyPositionCheck => exact hforce
    | resizeSizeFix =>
      cases hw : env.mainWindow with
      | none => simp [runCallback, resizeFixBody, hw, onTopFollowsPosition]
      | some w =>
        cases hd : w.destroyed <;>
          simp [runCallback, resizeFixBody, hw, hd, onTopFollowsPosition]

/-- C10: each retry-ladder callback performs the `forceDesiredSize`
effects at fire time before the position re-check: on a live surface the
step's effects are exactly the size-correction effects followed by the
conditional position re-issue, and when the size has drifted the very
first effect of the step is the size correction. -/
theorem retry_step_forces_size_first (env : Env) (w : Win) (attempt : Nat)
    (desired : WindowPosition) (hw : env.mainWindow = some w) (hlive : w.destroyed = false) :
    (w.width ≠ WINDOW_WIDTH ∨ w.height ≠ WINDOW_HEIGHT →
      (runCallback (Callback.positionRetry attempt desired) env).head? =
        some (Eff.setSize WINDOW_WIDTH WINDOW_HEIGHT)) ∧
    runCallback (Callback.positionRetry attempt desired) env =
      forceDesiredSize env ++
        (if w.x ≠ desired.x ∨ w.y ≠ desired.y then
          [Eff.setPosition desired.x desired.y, Eff.setAlwaysOnTop true]
        else []) := by
  have hbody := positionRetryBody_eq desired env w hw hlive
  refine ⟨?_, hbody⟩
  intro hdrift
  show (positionRetryBody desired env).head? = _
  rw [hbody, forceDesiredSize_eq env w hw hlive, if_pos hdrift]
  rfl

def winSizeDrift : Win := { x := 0, y := 1696, width := 100, height := 100, destroyed := false }

def envSizeDrift : Env := { mainWindow := some winSizeDrift, windowPosition := none }

/-- Witness for C10 at a concrete size-drifted state. -/
theorem retry_step_forces_size_first_witness :
    (runCallback (Callback.positionRetry 2 DESIRED_POSITION) envSizeDrift).head? =
      some (Eff.setSize WINDOW_WIDTH WINDOW_HEIGHT) :=
  (retry_step_forces_size_first envSizeDrift winSizeDrift 2 DESIRED_POSITION rfl rfl).1
    (Or.inl (by decide))

end WidgetClock
